import Mathlib

/-!
Verification of the SEO scoring engine in `seo-scoring-app.py`.

The engine evaluates a tabular crawl export against per-metric boolean
predicates, turns each metric into a 0-100 percentage score, averages the
metric scores of a category, combines the three category scores with fixed
weights into an overall score, and classifies the overall score into a
letter grade and a status label.

Modelling conventions:
* pandas cell values are `Value`: a missing cell (NaN), a number, or a text.
  Float arithmetic is modelled by exact rationals; every input exercised by a
  concrete theorem below is chosen so that the float and rational results of
  the program agree.
* a pandas DataFrame is `Dataset`: its column set plus its ordered rows.
* the Python builtin `round` (round half to even) is `pyRound`.
* each `if column present: score = round(mask.mean()*100); ...; else: score = 0`
  block of the source is one `runBlock` over a `MetricDef` record that carries
  the column names, the row predicate, the alert threshold and the canned
  weakness message of that block, exactly as they appear in the source.
* `round` applied to NaN raises ValueError in Python; a computation that would
  do so is modelled as `none`, and propagates as `none` through the category
  analyzers, mirroring the exception aborting the Python function.
-/

namespace SeoApp

/-- A cell of the crawl table: missing (NaN), numeric, or text. -/
inductive Value where
  | null : Value
  | num (q : ℚ) : Value
  | str (s : String) : Value
deriving DecidableEq

/-- A row assigns a cell value to every column name. -/
abbrev Row : Type := String → Value

/-- A DataFrame: the set of columns of the table and its ordered rows. -/
structure Dataset where
  cols : List String
  rows : List Row

/-- `series.notna()` on one cell: true unless the cell is missing. -/
def Value.notna : Value → Bool
  | .null => false
  | _ => true

/-- `series >= b` on one cell: NaN and text compare false. -/
def Value.numGE (v : Value) (b : ℚ) : Bool :=
  match v with
  | .num q => b ≤ q
  | _ => false

/-- `series <= b` on one cell: NaN and text compare false. -/
def Value.numLE (v : Value) (b : ℚ) : Bool :=
  match v with
  | .num q => q ≤ b
  | _ => false

/-- `series > b` on one cell: NaN and text compare false. -/
def Value.numGT (v : Value) (b : ℚ) : Bool :=
  match v with
  | .num q => b < q
  | _ => false

/-- `series == s` against a string constant: NaN and numbers compare false. -/
def Value.eqStr (v : Value) (s : String) : Bool :=
  match v with
  | .str t => t = s
  | _ => false

/-- The Python builtin round: nearest integer, ties to the even one. -/
def pyRound (q : ℚ) : ℤ :=
  if q - ⌊q⌋ < 1 / 2 then ⌊q⌋
  else if 1 / 2 < q - ⌊q⌋ then ⌊q⌋ + 1
  else if ⌊q⌋ % 2 = 0 then ⌊q⌋ else ⌊q⌋ + 1

/-- Round half up, the rounding rule the specification text asserts. -/
def roundHalfUp (q : ℚ) : ℤ := ⌊q + 1 / 2⌋

/-- One scoring block of the source: its column guard, row predicate, alert
threshold and canned weakness message, copied from the corresponding lines. -/
structure MetricDef where
  id : String
  cols : List String
  pred : Row → Bool
  thr : ℚ
  msg : String

/-- `c in df.columns` for every required column. -/
def hasCols (df : Dataset) (cs : List String) : Bool :=
  cs.all (fun c => df.cols.contains c)

/-- Number of rows on which the boolean mask is true. -/
def matchCount (p : Row → Bool) (rows : List Row) : ℕ :=
  (rows.filter p).length

/-- `mask.mean() * 100`: the raw percentage of matching rows; `none` models
the NaN produced by the mean of an empty column. -/
def rawPct (m : MetricDef) (df : Dataset) : Option ℚ :=
  if df.rows.length = 0 then none
  else some (100 * (matchCount m.pred df.rows : ℚ) / (df.rows.length : ℚ))

/-- One metric block. Columns present: score is `round` of the raw percentage
and the weakness message is appended when the raw (unrounded) percentage is
below the threshold; `round` of NaN (empty table) raises, modelled `none`.
Columns absent: score 0, no message, no error. -/
def runBlock (m : MetricDef) (df : Dataset) : Option (ℤ × Option String) :=
  if hasCols df m.cols then
    match rawPct m df with
    | none => none
    | some raw => some (pyRound raw, if raw < m.thr then some m.msg else none)
  else some (0, none)

/-- Run the blocks of one analyzer in source order, accumulating the scores
dict (as an ordered association list) and the weakness list; an exception in
any block aborts the whole analyzer. -/
def runBlocks (ms : List MetricDef) (df : Dataset) :
    Option (List (String × ℤ) × List String) :=
  match ms with
  | [] => some ([], [])
  | m :: rest =>
    match runBlock m df with
    | none => none
    | some (s, w) =>
      match runBlocks rest df with
      | none => none
      | some (scores, ws) => some ((m.id, s) :: scores, w.toList ++ ws)

/-- `round(np.mean(list(scores.values())))`: `none` models the NaN mean of an
empty list (never reached: every analyzer has a nonempty block list). -/
def meanScore (scores : List (String × ℤ)) : Option ℤ :=
  if scores.length = 0 then none
  else some (pyRound (((scores.map (fun p => p.2)).sum : ℚ) / (scores.length : ℚ)))

/-- The common shape of the three analyzers: run the blocks, then return
`(round(mean of scores), scores, weaknesses)`. -/
def runCategory (ms : List MetricDef) (df : Dataset) :
    Option (ℤ × List (String × ℤ) × List String) :=
  match runBlocks ms df with
  | none => none
  | some (scores, ws) =>
    match meanScore scores with
    | none => none
    | some avg => some (avg, scores, ws)

/-- Meta Title Analysis block: columns Title 1 / Title 1 Length, predicate
title present and 30 <= length <= 60, threshold 50. -/
def metaTitle : MetricDef :=
  ⟨"meta_title", ["Title 1", "Title 1 Length"],
   fun r => (r ("Title 1")).notna && (r ("Title 1 Length")).numGE 30 &&
            (r ("Title 1 Length")).numLE 60,
   50, "Short or missing meta titles."⟩

/-- Meta Description Analysis block: description present and
120 <= length <= 160, threshold 50. -/
def metaDescription : MetricDef :=
  ⟨"meta_description", ["Meta Description 1", "Meta Description 1 Length"],
   fun r => (r ("Meta Description 1")).notna &&
            (r ("Meta Description 1 Length")).numGE 120 &&
            (r ("Meta Description 1 Length")).numLE 160,
   50, "Short or missing meta descriptions."⟩

/-- H1 Tags block: H1-1 present, threshold 50. -/
def h1Tags : MetricDef :=
  ⟨"h1_tags", ["H1-1"], fun r => (r ("H1-1")).notna,
   50, "Missing or poorly optimized H1 tags."⟩

/-- Internal Linking block: Inlinks > 0, threshold 50. -/
def internalLinking : MetricDef :=
  ⟨"internal_linking", ["Inlinks"], fun r => (r ("Inlinks")).numGT 0,
   50, "Insufficient internal linking."⟩

/-- Response Time block: Response Time <= 1.0, threshold 50. -/
def responseTime : MetricDef :=
  ⟨"response_time", ["Response Time"], fun r => (r ("Response Time")).numLE 1,
   50, "Slow response times."⟩

/-- Indexability block: Indexability == Indexable, threshold 70. -/
def indexability : MetricDef :=
  ⟨"indexability", ["Indexability"],
   fun r => (r ("Indexability")).eqStr ("Indexable"),
   70, "Pages not indexable."⟩

/-- Mobile Friendly block: Mobile Alternate Link present, threshold 50. -/
def mobileFriendly : MetricDef :=
  ⟨"mobile_friendly", ["Mobile Alternate Link"],
   fun r => (r ("Mobile Alternate Link")).notna,
   50, "Pages not mobile-friendly."⟩

/-- LCP block: Largest Contentful Paint Time (ms) <= 2500, threshold 50. -/
def largestContentfulPaint : MetricDef :=
  ⟨"largest_contentful_paint", ["Largest Contentful Paint Time (ms)"],
   fun r => (r ("Largest Contentful Paint Time (ms)")).numLE 2500,
   50, "Slow LCP times."⟩

/-- CLS block: Cumulative Layout Shift <= 0.1, threshold 50. -/
def cumulativeLayoutShift : MetricDef :=
  ⟨"cumulative_layout_shift", ["Cumulative Layout Shift"],
   fun r => (r ("Cumulative Layout Shift")).numLE (1 / 10),
   50, "High CLS values."⟩

/-- The blocks of analyze_content_seo, in source order. -/
def contentMetrics : List MetricDef :=
  [metaTitle, metaDescription, h1Tags, internalLinking]

/-- The blocks of analyze_technical_seo, in source order. -/
def technicalMetrics : List MetricDef :=
  [responseTime, indexability]

/-- The blocks of analyze_user_experience, in source order. -/
def uxMetrics : List MetricDef :=
  [mobileFriendly, largestContentfulPaint, cumulativeLayoutShift]

/-- All metric blocks, in category order (Content, Technical, UX) and source
order within each category. -/
def allMetrics : List MetricDef :=
  contentMetrics ++ technicalMetrics ++ uxMetrics

/-- SEOScorer.analyze_content_seo. -/
def analyze_content_seo (df : Dataset) :
    Option (ℤ × List (String × ℤ) × List String) :=
  runCategory contentMetrics df

/-- SEOScorer.analyze_technical_seo. -/
def analyze_technical_seo (df : Dataset) :
    Option (ℤ × List (String × ℤ) × List String) :=
  runCategory technicalMetrics df

/-- SEOScorer.analyze_user_experience. -/
def analyze_user_experience (df : Dataset) :
    Option (ℤ × List (String × ℤ) × List String) :=
  runCategory uxMetrics df

/-- The category weight mapping held by SEOScorer (`self.weights`). -/
structure Weights where
  content_seo : ℚ
  technical_seo : ℚ
  user_experience : ℚ

/-- The weights set in the SEOScorer constructor: 0.4, 0.4, 0.2. -/
def defaultWeights : Weights :=
  ⟨4 / 10, 4 / 10, 2 / 10⟩

/-- All weights scaled by one constant. -/
def scaleW (k : ℚ) (w : Weights) : Weights :=
  ⟨k * w.content_seo, k * w.technical_seo, k * w.user_experience⟩

/-- SEOScorer.calculate_overall_score: each category score is divided by 100,
multiplied by its weight, the three products are summed, multiplied by 100
and rounded. No normalization by the sum of the weights takes place. -/
def calculate_overall_score (w : Weights) (content technical ux : ℤ) : ℤ :=
  pyRound (((content : ℚ) / 100 * w.content_seo +
            (technical : ℚ) / 100 * w.technical_seo +
            (ux : ℚ) / 100 * w.user_experience) * 100)

/-- The overall formula as the specification text states it: the weighted sum
divided by the sum of the weights of the categories present (here always all
three). Written from the words of the spec, for comparison with
`calculate_overall_score`. -/
def specOverall (w : Weights) (content technical ux : ℤ) : ℤ :=
  pyRound (((content : ℚ) / 100 * w.content_seo +
            (technical : ℚ) / 100 * w.technical_seo +
            (ux : ℚ) / 100 * w.user_experience) /
           (w.content_seo + w.technical_seo + w.user_experience) * 100)

/-- SEOScorer.get_grade. -/
def get_grade (score : ℤ) : String :=
  if score ≥ 90 then "A+"
  else if score ≥ 80 then "A"
  else if score ≥ 70 then "B"
  else if score ≥ 60 then "C"
  else if score ≥ 50 then "D"
  else "F"

/-- get_score_status. The source prefixes each label with a pictograph
(stored double-encoded in the file); only the text part is modelled, the
banding and distinctness of the six labels are unaffected. -/
def get_score_status (score : ℤ) : String :=
  if score ≥ 90 then "Excellent"
  else if score ≥ 80 then "Very Good"
  else if score ≥ 70 then "Good"
  else if score ≥ 60 then "Average"
  else if score ≥ 50 then "Below Average"
  else "Needs Work"

/-- The single-file pipeline of main: the three analyzers then the overall
score; any exception aborts the run (`none`). -/
def scoreDataset (df : Dataset) : Option ℤ :=
  match analyze_content_seo df with
  | none => none
  | some (c, _, _) =>
    match analyze_technical_seo df with
    | none => none
    | some (t, _, _) =>
      match analyze_user_experience df with
      | none => none
      | some (u, _, _) => some (calculate_overall_score defaultWeights c t u)

/-- Modelled from the spec: the Batch Comparator of spec section 4.6 is not
present in src/ (the app scores a single uploaded file); per the spec, each
file of the batch is scored by the full pipeline independently, and a failure
on one file is recorded for that file and never aborts the others. `none` in
an outcome is the recorded failure of that file. -/
def run_batch (files : List (String × Dataset)) : List (String × Option ℤ) :=
  files.map (fun f => (f.1, scoreDataset f.2))

/-- Modelled from the spec: the overall scores of the successfully scored
files of a batch, in input order. -/
def batchSuccesses (outcomes : List (String × Option ℤ)) : List ℤ :=
  outcomes.filterMap (fun o => o.2)

/-- Modelled from the spec: summary statistics (average, best, worst) over
the successfully scored files only; absent when no file succeeded. -/
def batchSummary (outcomes : List (String × Option ℤ)) : Option (ℚ × ℤ × ℤ) :=
  match batchSuccesses outcomes with
  | [] => none
  | s :: ss =>
    some (((s :: ss).sum : ℚ) / ((s :: ss).length : ℚ),
          ss.foldl max s, ss.foldl min s)

/-! Helper lemmas about the rounding function. -/

lemma pyRound_eq_of_floor (q : ℚ) (f : ℤ) (hf : ⌊q⌋ = f) :
    pyRound q =
      if q - f < 1 / 2 then f
      else if 1 / 2 < q - f then f + 1
      else if f % 2 = 0 then f else f + 1 := by
  simp only [pyRound, hf]

lemma pyRound_intCast (n : ℤ) : pyRound ((n : ℚ)) = n := by
  rw [pyRound_eq_of_floor _ n (Int.floor_intCast n)]
  norm_num

lemma floor_le_pyRound (q : ℚ) : ⌊q⌋ ≤ pyRound q := by
  unfold pyRound
  split_ifs <;> omega

lemma pyRound_le_ceil (q : ℚ) : pyRound q ≤ ⌈q⌉ := by
  have hfc : ⌊q⌋ ≤ ⌈q⌉ := Int.floor_le_ceil q
  have hup : ∀ h : (1 : ℚ) / 2 ≤ q - ⌊q⌋, ⌊q⌋ + 1 ≤ ⌈q⌉ := by
    intro h
    have hlt : (⌊q⌋ : ℚ) < q := by linarith
    exact Int.lt_ceil.mpr hlt
  unfold pyRound
  split_ifs with h1 h2 h3
  · exact hfc
  · exact hup (le_of_lt h2)
  · exact hfc
  · exact hup (by linarith)

lemma pyRound_close (q : ℚ) : |(pyRound q : ℚ) - q| ≤ 1 / 2 := by
  have hfl : (⌊q⌋ : ℚ) ≤ q := Int.floor_le q
  have hlt : q < ⌊q⌋ + 1 := Int.lt_floor_add_one q
  unfold pyRound
  split_ifs with h1 h2 h3 <;> rw [abs_le] <;> constructor <;> push_cast <;> linarith

lemma pyRound_tie_even (q : ℚ) (h : |(pyRound q : ℚ) - q| = 1 / 2) :
    pyRound q % 2 = 0 := by
  have hfl : (⌊q⌋ : ℚ) ≤ q := Int.floor_le q
  have hlt : q < ⌊q⌋ + 1 := Int.lt_floor_add_one q
  unfold pyRound at h ⊢
  split_ifs at h ⊢ with h1 h2 h3
  · exfalso
    have habs : |(⌊q⌋ : ℚ) - q| = q - ⌊q⌋ := by
      rw [abs_sub_comm, abs_of_nonneg (by linarith)]
    rw [habs] at h
    linarith
  · exfalso
    have habs : |((⌊q⌋ + 1 : ℤ) : ℚ) - q| = (⌊q⌋ + 1) - q := by
      rw [abs_of_nonneg] <;> push_cast <;> linarith
    rw [habs] at h
    push_cast at h
    linarith
  · exact h3
  · omega

/-! Helper lemmas about counting matching rows. -/

lemma matchCount_append (p : Row → Bool) (xs ys : List Row) :
    matchCount p (xs ++ ys) = matchCount p xs + matchCount p ys := by
  simp [matchCount, List.filter_append]

lemma matchCount_replicate (p : Row → Bool) (n : ℕ) (r : Row) :
    matchCount p (List.replicate n r) = if p r then n else 0 := by
  simp only [matchCount, List.filter_replicate]
  split_ifs <;> simp

lemma matchCount_le_length (p : Row → Bool) (rows : List Row) :
    matchCount p rows ≤ rows.length :=
  List.length_filter_le p rows

/-! Concrete rows and datasets used in the witnesses and counterexamples. -/

/-- A crawl row with a title of length 45; it satisfies the meta title rule. -/
def goodTitleRow : Row := fun c =>
  if c = ("Title 1") then .str ("t")
  else if c = ("Title 1 Length") then .num 45
  else .null

/-- A row with every cell missing; it fails every metric rule. -/
def nullRow : Row := fun _ => .null

/-- Eight rows with the title columns, five of which pass the meta title
rule: the raw percentage is exactly 62.5. -/
def dsEight : Dataset :=
  ⟨["Title 1", "Title 1 Length"],
   List.replicate 5 goodTitleRow ++ List.replicate 3 nullRow⟩

/-- 101 rows, 50 of which pass the meta title rule: the raw percentage is
5000/101, slightly below 50, yet it rounds up to 50. -/
def dsBorder : Dataset :=
  ⟨["Title 1", "Title 1 Length"],
   List.replicate 50 goodTitleRow ++ List.replicate 51 nullRow⟩

/-- Two rows, one of which passes the meta title rule: the raw percentage is
exactly 50. -/
def dsHalf : Dataset :=
  ⟨["Title 1", "Title 1 Length"], [goodTitleRow, nullRow]⟩

/-- One row that passes the meta title rule. -/
def dsAllGood : Dataset :=
  ⟨["Title 1", "Title 1 Length"], [goodTitleRow]⟩

/-- Zero rows, with the meta title columns present. -/
def dsEmptyTitled : Dataset :=
  ⟨["Title 1", "Title 1 Length"], []⟩

/-- Zero rows, with only the H1-1 column present. -/
def dsEmptyH1 : Dataset :=
  ⟨["H1-1"], []⟩

/-- One row, no columns at all: every block takes its else branch. -/
def dsNoCols : Dataset :=
  ⟨[], [nullRow]⟩

lemma goodTitleRow_title : goodTitleRow ("Title 1") = .str ("t") := by
  simp [goodTitleRow]

lemma goodTitleRow_len : goodTitleRow ("Title 1 Length") = .num 45 := by
  simp [goodTitleRow]

lemma pred_goodTitleRow : metaTitle.pred goodTitleRow = true := by
  simp only [metaTitle, goodTitleRow_title, goodTitleRow_len,
    Value.notna, Value.numGE, Value.numLE]
  norm_num

lemma pred_nullRow : metaTitle.pred nullRow = true → False := by
  simp [metaTitle, nullRow, Value.notna]

lemma rawPct_dsEight : rawPct metaTitle dsEight = some (125 / 2) := by
  have hm : matchCount metaTitle.pred dsEight.rows = 5 := by
    simp only [dsEight, matchCount_append, matchCount_replicate,
      pred_goodTitleRow]
    simp [metaTitle, nullRow, Value.notna]
  have hl : dsEight.rows.length = 8 := by simp [dsEight]
  rw [rawPct, hl, hm]
  norm_num

lemma rawPct_dsBorder : rawPct metaTitle dsBorder = some (5000 / 101) := by
  have hm : matchCount metaTitle.pred dsBorder.rows = 50 := by
    simp only [dsBorder, matchCount_append, matchCount_replicate,
      pred_goodTitleRow]
    simp [metaTitle, nullRow, Value.notna]
  have hl : dsBorder.rows.length = 101 := by simp [dsBorder]
  rw [rawPct, hl, hm]
  norm_num

lemma rawPct_dsHalf : rawPct metaTitle dsHalf = some 50 := by
  have hm : matchCount metaTitle.pred dsHalf.rows = 1 := by
    simp only [dsHalf, matchCount]
    rw [List.filter_cons_of_pos pred_goodTitleRow]
    simp [metaTitle, nullRow, Value.notna]
  have hl : dsHalf.rows.length = 2 := by simp [dsHalf]
  rw [rawPct, hl, hm]
  norm_num

lemma pyRound_dsEight : pyRound (125 / 2) = 62 := by
  have hf : ⌊(125 : ℚ) / 2⌋ = 62 := by
    rw [Int.floor_eq_iff] <;> norm_num
  rw [pyRound_eq_of_floor _ 62 hf]
  norm_num

lemma pyRound_dsBorder : pyRound (5000 / 101) = 50 := by
  have hf : ⌊(5000 : ℚ) / 101⌋ = 49 := by
    rw [Int.floor_eq_iff] <;> norm_num
  rw [pyRound_eq_of_floor _ 49 hf]
  norm_num

lemma pyRound_eq_int (q : ℚ) (n : ℤ) (h : q = (n : ℚ)) : pyRound q = n := by
  rw [h, pyRound_intCast]

lemma hasCols_dsEight : hasCols dsEight metaTitle.cols = true := by decide

/-- Claim C1, counterexample: the overall scorer is not scale invariant.
Scaling every configured weight by the positive constant 2 doubles the
overall score (200 instead of 100 at category scores 100, 100, 100),
because calculate_overall_score never divides by the sum of the used
weights. -/
theorem C1_counterexample :
    calculate_overall_score (scaleW 2 defaultWeights) 100 100 100 = 200 ∧
    calculate_overall_score defaultWeights 100 100 100 = 100 ∧
    (200 : ℤ) ≠ 100 := by
  refine ⟨?_, ?_, by norm_num⟩
  · unfold calculate_overall_score scaleW defaultWeights
    apply pyRound_eq_int
    push_cast
    norm_num
  · unfold calculate_overall_score defaultWeights
    apply pyRound_eq_int
    push_cast
    norm_num

/-- Claim C1, amended: calculate_overall_score returns
round((c/100·w_content + t/100·w_technical + u/100·w_ux)·100) with no
normalization; whenever the configured weights sum to 1 (as the weights
0.4, 0.4, 0.2 set in the constructor do) this coincides with the
normalized formula the specification states. -/
theorem C1_overall_eq_spec_iff_weights_sum_one (w : Weights) (c t u : ℤ)
    (hsum : w.content_seo + w.technical_seo + w.user_experience = 1) :
    calculate_overall_score w c t u = specOverall w c t u := by
  unfold calculate_overall_score specOverall
  rw [hsum, div_one]

/-- Claim C1, witness: at the configured weights (which sum to 1) and the
category scores 80, 60, 40 the code and the specification formula agree. -/
theorem C1_witness :
    calculate_overall_score defaultWeights 80 60 40 =
      specOverall defaultWeights 80 60 40 :=
  C1_overall_eq_spec_iff_weights_sum_one defaultWeights 80 60 40
    (by norm_num [defaultWeights])

/-- Claim C2, counterexample: on eight rows of which five match, the raw
percentage is exactly 62.5 and the evaluator reports 62 (the Python round
ties to even), while the round-half-up rule the claim states would give
63. -/
theorem C2_counterexample :
    rawPct metaTitle dsEight = some (125 / 2) ∧
    (runBlock metaTitle dsEight).map Prod.fst = some 62 ∧
    roundHalfUp (125 / 2) = 63 ∧
    (62 : ℤ) ≠ 63 := by
  refine ⟨rawPct_dsEight, ?_, ?_, by norm_num⟩
  · simp [runBlock, hasCols_dsEight, rawPct_dsEight, pyRound_dsEight]
  · have h : (125 : ℚ) / 2 + 1 / 2 = ((63 : ℤ) : ℚ) := by norm_num
    rw [roundHalfUp, h, Int.floor_intCast]

/-- Claim C2, amended: for every metric whose required columns are present
and every dataset with at least one row, the reported score is the raw
percentage rounded to the nearest integer with ties to the EVEN integer
(the Python round), not half up: the score differs from the raw percentage
by at most 1/2, and when the distance is exactly 1/2 the score is even. -/
theorem C2_round_half_even (m : MetricDef) (df : Dataset) (raw : ℚ)
    (h1 : hasCols df m.cols = true) (h2 : rawPct m df = some raw) :
    (runBlock m df).map Prod.fst = some (pyRound raw) ∧
    |(pyRound raw : ℚ) - raw| ≤ 1 / 2 ∧
    (|(pyRound raw : ℚ) - raw| = 1 / 2 → pyRound raw % 2 = 0) := by
  refine ⟨?_, pyRound_close raw, pyRound_tie_even raw⟩
  simp [runBlock, h1, h2]

/-- Claim C2, witness: the amended statement at the meta title metric on
the eight-row dataset with raw percentage 62.5. -/
theorem C2_witness :
    (runBlock metaTitle dsEight).map Prod.fst = some (pyRound (125 / 2)) ∧
    |(pyRound (125 / 2) : ℚ) - 125 / 2| ≤ 1 / 2 ∧
    (|(pyRound (125 / 2) : ℚ) - 125 / 2| = 1 / 2 → pyRound (125 / 2) % 2 = 0) :=
  C2_round_half_even metaTitle dsEight (125 / 2) hasCols_dsEight rawPct_dsEight

/-- Claim C4, counterexample: the status classifier has six bands, not the
three buckets the claim states: 50 and 89 would both be Medium under the
claim, yet the code maps them to different labels, and 90 is labelled
Excellent, not Good. -/
theorem C4_counterexample :
    get_score_status 50 ≠ get_score_status 89 ∧
    get_score_status 90 = ("Excellent") := by
  constructor
  · decide
  · rfl

/-- Claim C4, amended: get_score_status maps the overall score to six
bands with exact boundaries: at least 90 Excellent, 80 to 89 Very Good,
70 to 79 Good, 60 to 69 Average, 50 to 59 Below Average, below 50 Needs
Work. -/
theorem C4_status_bands (s : ℤ) :
    (90 ≤ s → get_score_status s = ("Excellent")) ∧
    (80 ≤ s ∧ s < 90 → get_score_status s = ("Very Good")) ∧
    (70 ≤ s ∧ s < 80 → get_score_status s = ("Good")) ∧
    (60 ≤ s ∧ s < 70 → get_score_status s = ("Average")) ∧
    (50 ≤ s ∧ s < 60 → get_score_status s = ("Below Average")) ∧
    (s < 50 → get_score_status s = ("Needs Work")) := by
  refine ⟨fun h => ?_, fun h => ?_, fun h => ?_, fun h => ?_, fun h => ?_,
    fun h => ?_⟩ <;>
    (unfold get_score_status; split_ifs <;> first | rfl | omega)

/-- Claim C4, witness: the amended bands at concrete scores in each band. -/
theorem C4_witness :
    get_score_status 90 = ("Excellent") ∧
    get_score_status 89 = ("Very Good") ∧
    get_score_status 75 = ("Good") ∧
    get_score_status 65 = ("Average") ∧
    get_score_status 55 = ("Below Average") ∧
    get_score_status 45 = ("Needs Work") :=
  ⟨(C4_status_bands 90).1 (by norm_num),
   (C4_status_bands 89).2.1 (by omega),
   (C4_status_bands 75).2.2.1 (by omega),
   (C4_status_bands 65).2.2.2.1 (by omega),
   (C4_status_bands 55).2.2.2.2.1 (by omega),
   (C4_status_bands 45).2.2.2.2.2 (by omega)⟩

/-- Claim C7: get_grade maps the overall score to a letter grade with
exact band boundaries: at least 90 A+, 80 to 89 A, 70 to 79 B, 60 to 69 C,
50 to 59 D, below 50 F. -/
theorem C7_grade_bands (s : ℤ) :
    (90 ≤ s → get_grade s = ("A+")) ∧
    (80 ≤ s ∧ s < 90 → get_grade s = ("A")) ∧
    (70 ≤ s ∧ s < 80 → get_grade s = ("B")) ∧
    (60 ≤ s ∧ s < 70 → get_grade s = ("C")) ∧
    (50 ≤ s ∧ s < 60 → get_grade s = ("D")) ∧
    (s < 50 → get_grade s = ("F")) := by
  refine ⟨fun h => ?_, fun h => ?_, fun h => ?_, fun h => ?_, fun h => ?_,
    fun h => ?_⟩ <;>
    (unfold get_grade; split_ifs <;> first | rfl | omega)

/-- Claim C7, witness: the grade bands at concrete scores in each band. -/
theorem C7_witness :
    get_grade 90 = ("A+") ∧
    get_grade 89 = ("A") ∧
    get_grade 75 = ("B") ∧
    get_grade 65 = ("C") ∧
    get_grade 55 = ("D") ∧
    get_grade 45 = ("F") :=
  ⟨(C7_grade_bands 90).1 (by norm_num),
   (C7_grade_bands 89).2.1 (by omega),
   (C7_grade_bands 75).2.2.1 (by omega),
   (C7_grade_bands 65).2.2.2.1 (by omega),
   (C7_grade_bands 55).2.2.2.2.1 (by omega),
   (C7_grade_bands 45).2.2.2.2.2 (by omega)⟩

lemma runBlock_none_of_empty (m : MetricDef) (df : Dataset)
    (h0 : df.rows = []) (hc : hasCols df m.cols = true) :
    runBlock m df = none := by
  simp [runBlock, hc, rawPct, h0]

lemma runBlock_of_no_cols (m : MetricDef) (df : Dataset)
    (hc : hasCols df m.cols = false) :
    runBlock m df = some (0, none) := by
  simp [runBlock, hc]

lemma runBlocks_none_of_empty (ms : List MetricDef) (df : Dataset)
    (h0 : df.rows = [])
    (hc : ms.any (fun m => hasCols df m.cols) = true) :
    runBlocks ms df = none := by
  induction ms with
  | nil => simp at hc
  | cons m rest ih =>
    simp only [List.any_cons, Bool.or_eq_true] at hc
    by_cases hm : hasCols df m.cols = true
    · simp only [runBlocks]
      rw [runBlock_none_of_empty m df h0 hm]
    · have hmf : hasCols df m.cols = false := by
        simpa using hm
      have hrest : rest.any (fun x => hasCols df x.cols) = true := by
        rcases hc with h | h
        · exact absurd h hm
        · exact h
      simp only [runBlocks]
      rw [runBlock_of_no_cols m df hmf, ih hrest]

/-- Claim C3, counterexample: on a zero-row dataset whose required columns
are present, the mean of the empty mask is NaN and the Python round of it
raises, so the content analyzer does not return a 0 score: it aborts. -/
theorem C3_counterexample :
    hasCols dsEmptyTitled metaTitle.cols = true ∧
    dsEmptyTitled.rows = ([] : List Row) ∧
    analyze_content_seo dsEmptyTitled = none :=
  ⟨by decide, rfl, rfl⟩

/-- Claim C3, amended: on a zero-row dataset, as soon as any content
metric has its required columns present the analyzer raises (round of the
NaN mean of an empty column) instead of returning score 0; the pipeline
reports the error instead of completing with a result. -/
theorem C3_empty_dataset_raises (df : Dataset) (h0 : df.rows = [])
    (hc : contentMetrics.any (fun m => hasCols df m.cols) = true) :
    analyze_content_seo df = none := by
  unfold analyze_content_seo runCategory
  rw [runBlocks_none_of_empty contentMetrics df h0 hc]

/-- Claim C3, witness: the amended statement on the zero-row dataset that
has only the H1-1 column. -/
theorem C3_witness : analyze_content_seo dsEmptyH1 = none :=
  C3_empty_dataset_raises dsEmptyH1 rfl (by decide)

/-- Claim C6: for every metric of the catalog and every dataset, if any
required column is absent the block returns score 0 with no weakness and
no error, and the following blocks still run. -/
theorem C6_missing_columns (m : MetricDef) (hm : m ∈ allMetrics)
    (df : Dataset) (hc : hasCols df m.cols = false) :
    runBlock m df = some (0, none) ∧
    ∀ rest, runBlocks (m :: rest) df =
      (runBlocks rest df).map (fun p => ((m.id, 0) :: p.1, p.2)) := by
  have hb : runBlock m df = some (0, none) := runBlock_of_no_cols m df hc
  refine ⟨hb, fun rest => ?_⟩
  simp only [runBlocks]
  rw [hb]
  cases runBlocks rest df <;> simp

/-- Claim C6, witness: the meta title metric on a one-row dataset with no
columns scores 0 without an error. -/
theorem C6_witness : runBlock metaTitle dsNoCols = some (0, none) :=
  (C6_missing_columns metaTitle
    (by simp [allMetrics, contentMetrics, technicalMetrics, uxMetrics])
    dsNoCols (by decide)).1

/-- Claim C9, counterexample: on a zero-row dataset with the required
columns present, every row vacuously satisfies the predicate, yet the
block produces no score at all (round of NaN raises) instead of the
score 100 the claim asserts. -/
theorem C9_counterexample :
    hasCols dsEmptyTitled metaTitle.cols = true ∧
    dsEmptyTitled.rows.all metaTitle.pred = true ∧
    runBlock metaTitle dsEmptyTitled = none :=
  ⟨by decide, rfl, rfl⟩

/-- Claim C9, amended: every score a block returns lies between 0 and 100;
on a dataset with at least one row and the required columns present, the
score is exactly 100 when every row satisfies the predicate and exactly 0
when no row does. -/
theorem C9_score_bounds (m : MetricDef) (hm : m ∈ allMetrics) (df : Dataset) :
    (∀ r, runBlock m df = some r → 0 ≤ r.1 ∧ r.1 ≤ 100) ∧
    (hasCols df m.cols = true → df.rows.length ≠ 0 →
      df.rows.all m.pred = true → (runBlock m df).map Prod.fst = some 100) ∧
    (hasCols df m.cols = true → df.rows.length ≠ 0 →
      df.rows.all (fun r => !(m.pred r)) = true →
      (runBlock m df).map Prod.fst = some 0) := by
  refine ⟨?_, ?_, ?_⟩
  · intro r hr
    by_cases hc : hasCols df m.cols = true
    · rcases hp : rawPct m df with _ | raw
      · simp [runBlock, hc, hp] at hr
      · have hlen : df.rows.length ≠ 0 := by
          intro h0
          rw [rawPct, if_pos h0] at hp
          exact Option.noConfusion hp
        have hraw : raw = 100 * (matchCount m.pred df.rows : ℚ) /
            (df.rows.length : ℚ) := by
          rw [rawPct, if_neg hlen] at hp
          exact (Option.some.inj hp).symm
        have hr1 : r.1 = pyRound raw := by
          simp only [runBlock, hc, if_true, hp] at hr
          rw [← Option.some.inj hr]
        have h0 : (0 : ℚ) ≤ raw := by
          rw [hraw]
          positivity
        have h100 : raw ≤ 100 := by
          have hmc : (matchCount m.pred df.rows : ℚ) ≤ (df.rows.length : ℚ) :=
            Nat.cast_le.mpr (matchCount_le_length m.pred df.rows)
          have hpos : (0 : ℚ) < (df.rows.length : ℚ) := by
            exact_mod_cast Nat.pos_of_ne_zero hlen
          rw [hraw, div_le_iff₀ hpos]
          nlinarith
        have hlo : 0 ≤ ⌊raw⌋ := Int.floor_nonneg.mpr h0
        have hhi : ⌈raw⌉ ≤ 100 := Int.ceil_le.mpr (by exact_mod_cast h100)
        have hfl := floor_le_pyRound raw
        have hcl := pyRound_le_ceil raw
        rw [hr1]
        omega
    · have hcf : hasCols df m.cols = false := by simpa using hc
      rw [runBlock_of_no_cols m df hcf] at hr
      rw [← Option.some.inj hr]
      norm_num
  · intro hc hlen hall
    have hfilter : df.rows.filter m.pred = df.rows :=
      List.filter_eq_self.mpr (by simpa [List.all_eq_true] using hall)
    have hmc : matchCount m.pred df.rows = df.rows.length := by
      rw [matchCount, hfilter]
    have hraw : rawPct m df = some 100 := by
      rw [rawPct, if_neg hlen, hmc, mul_div_assoc,
        div_self (Nat.cast_ne_zero.mpr hlen), mul_one]
    simp only [runBlock, hc, if_true, hraw]
    rw [pyRound_eq_int 100 100 (by norm_num)]
    rfl
  · intro hc hlen hnone
    have hfilter : df.rows.filter m.pred = [] := by
      rw [List.filter_eq_nil_iff]
      intro a ha
      have := List.all_eq_true.mp hnone a ha
      simpa using this
    have hmc : matchCount m.pred df.rows = 0 := by
      rw [matchCount, hfilter]
      rfl
    have hraw : rawPct m df = some 0 := by
      rw [rawPct, if_neg hlen, hmc]
      norm_num
    simp only [runBlock, hc, if_true, hraw]
    rw [pyRound_eq_int 0 0 (by norm_num)]
    rfl

/-- Claim C9, witness: the amended statement on a one-row dataset whose
row passes the meta title rule. -/
theorem C9_witness : (runBlock metaTitle dsAllGood).map Prod.fst = some 100 :=
  (C9_score_bounds metaTitle
    (by simp [allMetrics, contentMetrics, technicalMetrics, uxMetrics])
    dsAllGood).2.1 (by decide) (by decide)
    (by simp [dsAllGood, pred_goodTitleRow])

/-- Claim C5 (the batch comparator is modelled from the spec, it is absent
from src/): a batch of N files yields exactly N recorded outcomes, the
outcome of each file is computed independently of the others (the batch
decomposes around any file, so a failure in the middle never drops or
changes another outcome), and the summary statistics are computed only
over the successfully scored files: a failed file contributes nothing to
them. -/
theorem C5_batch_isolation (pre post : List (String × Dataset))
    (fid : String) (df : Dataset) :
    (run_batch (pre ++ (fid, df) :: post)).length =
      (pre ++ (fid, df) :: post).length ∧
    run_batch (pre ++ (fid, df) :: post) =
      run_batch pre ++ (fid, scoreDataset df) :: run_batch post ∧
    (scoreDataset df = none →
      batchSuccesses (run_batch (pre ++ (fid, df) :: post)) =
        batchSuccesses (run_batch (pre ++ post))) ∧
    (scoreDataset df = none →
      batchSummary (run_batch (pre ++ (fid, df) :: post)) =
        batchSummary (run_batch (pre ++ post))) := by
  have hsucc : scoreDataset df = none →
      batchSuccesses (run_batch (pre ++ (fid, df) :: post)) =
        batchSuccesses (run_batch (pre ++ post)) := by
    intro hfail
    simp [run_batch, batchSuccesses, List.filterMap_append, hfail]
  refine ⟨by simp [run_batch], by simp [run_batch], hsucc, fun hfail => ?_⟩
  unfold batchSummary
  rw [hsucc hfail]

/-- Claim C5, witness: a three-file batch whose middle file fails (zero
rows with the title columns present) has the same summary statistics as the
two-file batch of its succeeding files. -/
theorem C5_witness :
    batchSummary (run_batch ([("a", dsNoCols)] ++
        ("b", dsEmptyTitled) :: [("c", dsNoCols)])) =
      batchSummary (run_batch ([("a", dsNoCols)] ++ [("c", dsNoCols)])) :=
  (C5_batch_isolation [("a", dsNoCols)] [("c", dsNoCols)]
    ("b") dsEmptyTitled).2.2.2 rfl

/-- Claim C8, counterexample: on a one-row dataset with no columns the
meta title score is 0, below its threshold 50, yet no weakness message is
appended (the absent-columns branch never appends one), so the message is
not appended exactly when the score is below the threshold. -/
theorem C8_counterexample :
    runBlock metaTitle dsNoCols = some (0, none) ∧
    (0 : ℚ) < metaTitle.thr := by
  constructor
  · rfl
  · norm_num [metaTitle]

/-- Claim C8, amended: the thresholds are 50 for every metric except
indexability (70); when the required columns are present and the table is
nonempty, the message is appended exactly when the raw unrounded
percentage is below the threshold; when columns are absent no message is
appended despite the 0 score; and the weakness list of an analyzer is the
messages of its blocks in definition order. -/
theorem C8_weakness_rule :
    (∀ m ∈ allMetrics,
      m.thr = if m.id = ("indexability") then (70 : ℚ) else 50) ∧
    (∀ m ∈ allMetrics, ∀ df raw, hasCols df m.cols = true →
      rawPct m df = some raw →
      runBlock m df =
        some (pyRound raw, if raw < m.thr then some m.msg else none)) ∧
    (∀ ms : List MetricDef, ∀ df out, runBlocks ms df = some out →
      out.2 = ms.filterMap (fun m => (runBlock m df).bind (fun r => r.2))) := by
  refine ⟨?_, ?_, ?_⟩
  · intro m hmem
    fin_cases hmem <;>
      simp [metaTitle, metaDescription, h1Tags, internalLinking,
        responseTime, indexability, mobileFriendly, largestContentfulPaint,
        cumulativeLayoutShift]
  · intro m hmem df raw h1 h2
    simp [runBlock, h1, h2]
  · intro ms df
    induction ms with
    | nil =>
      intro out h
      simp only [runBlocks] at h
      rw [← Option.some.inj h]
      rfl
    | cons m rest ih =>
      intro out h
      simp only [runBlocks] at h
      cases hb : runBlock m df with
      | none => rw [hb] at h; exact absurd h (by simp)
      | some sw =>
        rw [hb] at h
        obtain ⟨s, w⟩ := sw
        cases hr : runBlocks rest df with
        | none => rw [hr] at h; simp at h
        | some p =>
          rw [hr] at h
          obtain ⟨scores, ws⟩ := p
          have hout : out = ((m.id, s) :: scores, w.toList ++ ws) :=
            (Option.some.inj h).symm
          have hws := ih (scores, ws) hr
          rw [hout]
          simp only [List.filterMap_cons, hb]
          cases w <;> simp_all

/-- Claim C8, witness: the indexability threshold from the amended rule. -/
theorem C8_witness : indexability.thr = 70 := by
  have h := C8_weakness_rule.1 indexability
    (by simp [allMetrics, contentMetrics, technicalMetrics, uxMetrics])
  rw [h, if_pos (show indexability.id = ("indexability") from rfl)]

/-- Claim C10: the weakness test uses the raw percentage while the report
shows the rounded score: on the 101-row dataset the raw percentage
5000/101 is below the threshold 50 yet rounds to the reported score 50, so
the message is emitted at a reported score equal to the threshold, while
the two-row dataset reports the same score 50 without the message; the
weakness list is therefore not reconstructible from reported scores. -/
theorem C10_raw_threshold :
    rawPct metaTitle dsBorder = some (5000 / 101) ∧
    runBlock metaTitle dsBorder =
      some (50, some ("Short or missing meta titles.")) ∧
    runBlock metaTitle dsHalf = some (50, none) ∧
    metaTitle.thr = 50 := by
  have hB : hasCols dsBorder metaTitle.cols = true := by decide
  have hH : hasCols dsHalf metaTitle.cols = true := by decide
  refine ⟨rawPct_dsBorder, ?_, ?_, by norm_num [metaTitle]⟩
  · simp only [runBlock, hB, if_true, rawPct_dsBorder, pyRound_dsBorder]
    norm_num [metaTitle]
  · simp only [runBlock, hH, if_true, rawPct_dsHalf]
    rw [pyRound_eq_int 50 50 (by norm_num)]
    norm_num [metaTitle]

end SeoApp
